import Mathlib

/-!
# DisasterShield — verification of the ingestion pipeline backend

Shallow embedding of the DisasterShield backend (`backend/main.py` and
`backend/database/postgres_setup.py`) together with proofs about the
claims of the natural-language specification.

Conventions:
* Python strings are `String` / `List Char`; machine floats are modelled
  exactly as `ℚ` (every constant in the source is a short decimal, so the
  embedding is exact); database timestamps are `Nat` instants supplied by
  the caller (`CURRENT_TIMESTAMP`).
* The pseudo-random draws `random.random()` of the keyword classifier are
  modelled by an extra input `r : ℚ` with `0 ≤ r < 1`, exactly as the claim
  list prescribes.
* Fallible Python code is embedded with explicit `Bool`/`Except` results.
-/

namespace DisasterShield

/-! ## Server / startup state (main.py)

`main.py` keeps the loaded artifacts and the background task in module-level
globals (`ensemble_model`, `vectorizer`, `background_task`).  We model the
file system visible to `joblib.load` by two flags (whether any of the
candidate paths for the SVM model resp. the TF-IDF vectorizer resolves), and
the post-startup process state by `AppState`. -/

/-- Whether the two model artifacts are resolvable on disk: `svmPresent` is
true iff some path of `models/LinearSVM.joblib` candidates loads, and
`vecPresent` iff some `models/tfidf_vectorizer.joblib` candidate loads. -/
structure ArtifactFS where
  svmPresent : Bool
  vecPresent : Bool

/-- The module-level globals of `main.py` after startup: `ensemble_model` and
`vectorizer` are `true` when the corresponding global is not `None`, and
`background_task_running` reflects whether `background_task` holds a live
task. -/
structure AppState where
  ensemble_model : Bool
  vectorizer : Bool
  background_task_running : Bool

/-- Embeds `startup_tasks` (main.py lines 110–184).  Each artifact is loaded
independently from its candidate path list (lines 140–156), so a global can
stay loaded even when the other fails (the `raise` at line 161 is caught at
line 163 and only logged).  The `asyncio.create_task(hourly_update_task())`
call at line 175 is commented out ("Skip background task for now"), so
`background_task` remains `None` after startup. -/
def startup_tasks (fs : ArtifactFS) : AppState :=
  { ensemble_model := fs.svmPresent
    vectorizer := fs.vecPresent
    background_task_running := false }

/-- Outcome of one iteration of the scheduler loop body. -/
structure TickOutcome where
  loopContinues : Bool
  sleepSeconds : Nat

/-- Embeds one iteration of `hourly_update_task` (main.py lines 97–108): the
`try` block awaits `fetch_and_classify_reddit_posts()`; any exception the
cycle raises is caught by the bare `except Exception` and only logged; in
both cases the loop then sleeps 3600 seconds and continues. -/
def hourly_update_step (cycleResult : Except String Unit) : TickOutcome :=
  match cycleResult with
  | Except.ok _ => { loopContinues := true, sleepSeconds := 3600 }
  | Except.error _ => { loopContinues := true, sleepSeconds := 3600 }

/-- Outcome of a manual-trigger endpoint. -/
inductive TriggerOutcome where
  | success
  | error503
  | busy
  deriving DecidableEq

/-- Embeds `POST /force-update` (main.py lines 921–934).  The handler body is
`try: await fetch_and_classify_reddit_posts(); return {...} except: raise
HTTPException(503)`.  It consults no lock, flag, or queue, so it runs a cycle
unconditionally: given `inFlight` cycles currently executing it starts one
more, and the response is success or a 503 according to whether the cycle
raised — never a busy signal. -/
def force_update (inFlight : Nat) (cycleOk : Bool) : TriggerOutcome × Nat :=
  ((if cycleOk then TriggerOutcome.success else TriggerOutcome.error503), inFlight + 1)

/-- Embeds `POST /initialize-data` (main.py lines 607–614), whose body is the
same unguarded `await fetch_and_classify_reddit_posts()` wrapped in
`try/except HTTPException(503)`. -/
def initialize_data (inFlight : Nat) (cycleOk : Bool) : TriggerOutcome × Nat :=
  ((if cycleOk then TriggerOutcome.success else TriggerOutcome.error503), inFlight + 1)

/-! ## Category detector (main.py lines 338–359) -/

/-- Does `pat` occur at the head of `s`? (character-list version of a string
prefix test). -/
def charsStartWith : List Char → List Char → Bool
  | [], _ => true
  | _ :: _, [] => false
  | p :: ps, c :: cs => p == c && charsStartWith ps cs

/-- Python's `needle in hay` on strings: contiguous-substring occurrence. -/
def containsSub (needle : List Char) : List Char → Bool
  | [] => needle.isEmpty
  | c :: rest => charsStartWith needle (c :: rest) || containsSub needle rest

/-- Python `str.lower()` on the ASCII texts at hand: per-character
lower-casing. -/
def lowerString (s : String) : String :=
  String.mk (s.data.map Char.toLower)

/-- Python `\s` (and the separator set of `str.split()`) on the inputs at
hand: space, tab, newline, carriage return, vertical tab (11) and form feed
(12). -/
def isPyWhite (c : Char) : Bool :=
  c == ' ' || c == '\t' || c == '\n' || c == '\r' ||
  c == Char.ofNat 11 || c == Char.ofNat 12

/-- The ordered category → keyword mapping of `detect_disaster_category`
(main.py lines 343–352); Python dicts iterate in insertion order, so the
list order is the source order. -/
def categories : List (String × List String) :=
  [ ("earthquake", ["earthquake", "seismic", "tremor", "quake", "magnitude", "richter", "epicenter"])
  , ("flood", ["flood", "flooding", "deluge", "inundation", "overflow", "dam burst", "levee"])
  , ("fire", ["wildfire", "forest fire", "bushfire", "fire", "blaze", "inferno", "burn"])
  , ("storm", ["hurricane", "typhoon", "cyclone", "tornado", "storm", "tempest", "gale"])
  , ("weather", ["heatwave", "blizzard", "drought", "extreme weather", "severe weather"])
  , ("volcanic", ["volcano", "volcanic", "eruption", "lava", "ash cloud", "magma"])
  , ("landslide", ["landslide", "mudslide", "avalanche", "rockslide", "debris flow"])
  , ("tsunami", ["tsunami", "tidal wave", "seismic wave"]) ]

/-- `any(keyword in text_lower for keyword in keywords)` of main.py line 356. -/
def anyKeywordIn (kws : List String) (textLower : String) : Bool :=
  kws.any (fun k => containsSub k.data textLower.data)

/-- Embeds `detect_disaster_category` (main.py lines 338–359): lower-case the
text (the `text_lower` local of line 340), walk the category mapping in order
and return the first category one of whose keywords occurs in the text;
`'general'` otherwise. -/
def detect_disaster_category (text : String) : String :=
  match categories.find? (fun p => anyKeywordIn p.2 (lowerString text)) with
  | some p => p.1
  | none => "general"

/-! ## Keyword classifier (main.py lines 414–495)

`classify_text_keywords` counts case-insensitive substring hits from two
fixed keyword lists and branches on the counts.  Its `random.random()` draws
are modelled by the extra input `r` (one draw is consumed per executed
branch).  The trailing `except` of the Python function would return
`{"label": "unknown", "confidence": 0.5}`, but no statement of the `try`
body can raise on a `str`, so the embedding is the total `try` body. -/

/-- Result of a classification: a label and a confidence score. -/
structure ClassificationResult where
  label : String
  confidence : ℚ
  deriving DecidableEq

/-- `verified_keywords` of main.py lines 420–427. -/
def verified_keywords : List String :=
  [ "official", "usgs", "confirmed", "breaking", "emergency services"
  , "authorities", "government", "fire department", "police", "fema"
  , "national weather service", "earthquake", "magnitude", "evacuation"
  , "nws", "noaa", "red cross", "emergency management", "disaster response"
  , "first responders", "rescue teams", "meteorologist", "seismologist"
  , "issued warning", "alert issued", "official statement", "press release" ]

/-- `rumor_keywords` of main.py lines 430–436. -/
def rumor_keywords : List String :=
  [ "fake", "rumor", "unconfirmed", "allegedly", "reports suggest"
  , "conspiracy", "alien", "fabricated", "false information"
  , "hoax", "misleading", "debunked", "unverified", "speculation"
  , "claims without evidence", "social media reports", "viral video"
  , "end times", "apocalypse", "government cover-up" ]

/-- The authority terms consulted at main.py line 447. -/
def official_sources : List String := ["official", "government", "emergency"]

/-- `news_indicators` of main.py line 453. -/
def news_indicators : List String :=
  ["breaking", "reported", "according to", "sources say", "confirmed"]

/-- `uncertainty_indicators` of main.py line 457. -/
def uncertainty_indicators : List String :=
  ["might", "could", "possibly", "allegedly", "reportedly"]

/-- `sum(1 for keyword in kws if keyword in text_lower)`. -/
def countHits (kws : List String) (textLower : String) : Nat :=
  (kws.filter (fun k => containsSub k.data textLower.data)).length

/-- `verified_score` for a given raw text (main.py line 438). -/
def verifiedCount (text : String) : Nat := countHits verified_keywords (lowerString text)

/-- `rumor_score` (main.py line 439). -/
def rumorCount (text : String) : Nat := countHits rumor_keywords (lowerString text)

/-- `news_score` (main.py line 454). -/
def newsCount (text : String) : Nat := countHits news_indicators (lowerString text)

/-- `uncertainty_score` (main.py line 458). -/
def uncertaintyCount (text : String) : Nat := countHits uncertainty_indicators (lowerString text)

/-- `any(source in text_lower for source in ['official','government','emergency'])`
(main.py line 447). -/
def hasOfficialSource (text : String) : Bool :=
  official_sources.any (fun s => containsSub s.data (lowerString text).data)

/-- Counts the maximal non-whitespace runs of a character list (the Bool
flag records whether the previous character was part of a word). -/
def countWordsAux : Bool → List Char → Nat
  | _, [] => 0
  | inWord, c :: rest =>
    if isPyWhite c then countWordsAux false rest
    else if inWord then countWordsAux true rest
    else 1 + countWordsAux true rest

/-- `len(text_lower.split())`: Python `str.split()` splits on whitespace
runs, dropping empty fragments, so its length is the number of maximal
non-whitespace runs. -/
def wordCount (text : String) : Nat :=
  countWordsAux false (lowerString text).data

/-- Embeds `classify_text_keywords` (main.py lines 414–495).  The branch
structure follows the source exactly: the zero-match block (lines 443–473)
with its authority / news-vs-uncertainty sub-branches, then the
`verified_score > rumor_score` branch (lines 475–480), the
`rumor_score > verified_score` branch (lines 481–486) and the nonzero tie
(lines 487–491).  `r` stands for the `random.random()` draw consumed on the
executed branch. -/
def classify_text_keywords (text : String) (r : ℚ) : ClassificationResult :=
  if verifiedCount text + rumorCount text = 0 then
    if hasOfficialSource text then
      { label := "verified", confidence := 0.70 + r * 0.20 }
    else if uncertaintyCount text < newsCount text then
      { label := "verified"
        confidence := min 0.85 ((0.55 + (newsCount text : ℚ) * 0.05) + r * 0.10) }
    else
      { label := "rumor"
        confidence :=
          min 0.75 (max 0.40
            (if 0 < uncertaintyCount text then
              (0.45 + r * 0.15) + (uncertaintyCount text : ℚ) * 0.03
            else
              (0.45 + r * 0.15) + (wordCount text : ℚ) / 1000)) }
  else if rumorCount text < verifiedCount text then
    { label := "verified"
      confidence :=
        min 0.95 ((0.60 + (verifiedCount text : ℚ) * 0.08)
          + min 0.15 ((wordCount text : ℚ) / 200)) }
  else if verifiedCount text < rumorCount text then
    { label := "rumor"
      confidence :=
        min 0.90 ((0.55 + (rumorCount text : ℚ) * 0.06)
          + min 0.10 ((rumorCount text : ℚ) * 0.03)) }
  else
    { label := "rumor", confidence := 0.50 + r * 0.15 }

/-! ## Model-vs-fallback dispatch (main.py lines 361–412 and 950–981) -/

/-- Which code path a `classify_text` call takes. -/
inductive ClassifyPath where
  | model
  | keywords
  deriving DecidableEq

/-- Embeds the control flow of `classify_text` (main.py lines 361–412): if
the global `vectorizer` is `None` the call goes to
`classify_text_keywords` (line 405–408); otherwise the function re-loads the
SVM artifact from the same candidate paths as startup (lines 372–379) and,
when no path resolves, the raised exception is caught at line 400 and the
call falls back to `classify_text_keywords`; only with the vectorizer global
set and the SVM artifact resolvable does the statistical path run. -/
def classify_text_path (fs : ArtifactFS) (st : AppState) : ClassifyPath :=
  if st.vectorizer then
    if fs.svmPresent then ClassifyPath.model else ClassifyPath.keywords
  else ClassifyPath.keywords

/-- The relevant fields of the `GET /model-status` response. -/
structure ModelStatusResponse where
  status : String
  models_loaded : Bool
  deriving DecidableEq

/-- Embeds `model_status` (main.py lines 950–981): `models_loaded` is
`ensemble_model is not None and vectorizer is not None`; the reported status
is `"ready"` when both globals are set and `"fallback"` otherwise. -/
def model_status (st : AppState) : ModelStatusResponse :=
  if st.ensemble_model && st.vectorizer then
    { status := "ready", models_loaded := true }
  else
    { status := "fallback", models_loaded := false }

/-! ## Ingestion batch deduplication (main.py lines 576–577) -/

/-- The `post_data` dict built at main.py lines 556–567 for each fetched
Reddit post. -/
structure RedditPostData where
  tweet_id : String
  text : String
  username : String
  user_followers : Int
  tweet_timestamp : String
  likes : Int
  retweets : Int
  replies : Int
  category : String
  image_url : Option String
  deriving DecidableEq

/-- One assignment `d[k] = v` on a Python dict represented as its ordered
entry list: an existing key keeps its position and gets the new value, a new
key is appended. -/
def dictInsert (m : List (String × RedditPostData)) (k : String) (v : RedditPostData) :
    List (String × RedditPostData) :=
  if m.any (fun p => p.1 == k) then
    m.map (fun p => if p.1 == k then (k, v) else p)
  else
    m ++ [(k, v)]

/-- Embeds `unique_posts = {post['tweet_id']: post for post in all_posts}.values()`
(main.py line 577): build the dict left to right (later posts overwrite
earlier ones with the same `tweet_id`) and take the values in dict order. -/
def uniquePosts (allPosts : List RedditPostData) : List RedditPostData :=
  (allPosts.foldl (fun m post => dictInsert m post.tweet_id post) []).map (fun p => p.2)

/-! ## Persistence sink (database/postgres_setup.py)

The `tweets` table (lines 28–44) is modelled as an ordered list of rows; its
`UNIQUE` key on `tweet_id` is the no-duplicate-identifier invariant and its
`CHECK (classification_label IN ('verified', 'rumor'))` constraint is the
`labelOk` test below.  `CURRENT_TIMESTAMP` is an explicit `now` argument. -/

/-- One row of the `tweets` table (postgres_setup.py lines 28–44). -/
structure TweetRow where
  tweet_id : String
  text : String
  username : String
  user_followers : Int
  tweet_timestamp : String
  classification_label : String
  confidence_score : ℚ
  model_version : String
  likes : Int
  retweets : Int
  replies : Int
  category : String
  processed_at : Nat
  is_active : Bool
  deriving DecidableEq

/-- The dict passed to `insert_tweet` (built at main.py lines 584–589). -/
structure TweetData where
  tweet_id : String
  text : String
  username : String
  user_followers : Int
  tweet_timestamp : String
  classification_label : String
  confidence_score : ℚ
  category : String
  model_version : String
  likes : Int
  retweets : Int
  replies : Int
  deriving DecidableEq

/-- The `CHECK (classification_label IN ('verified', 'rumor'))` constraint of
the `tweets` table (postgres_setup.py line 35); it is enforced on inserts and
on the `ON CONFLICT` update alike. -/
def labelOk (label : String) : Bool :=
  label == "verified" || label == "rumor"

/-- The `ON CONFLICT (tweet_id) DO UPDATE SET` clause of `insert_tweet`
(postgres_setup.py lines 105–109): only `classification_label`,
`confidence_score`, `category` and `processed_at` are overwritten. -/
def updateOnConflict (d : TweetData) (now : Nat) (row : TweetRow) : TweetRow :=
  { row with
    classification_label := d.classification_label
    confidence_score := d.confidence_score
    category := d.category
    processed_at := now }

/-- A fresh row as built by the `INSERT` column list of `insert_tweet`
(postgres_setup.py lines 99–104); `processed_at` and `is_active` take their
column defaults (`CURRENT_TIMESTAMP`, `TRUE`). -/
def rowOfData (d : TweetData) (now : Nat) : TweetRow :=
  { tweet_id := d.tweet_id
    text := d.text
    username := d.username
    user_followers := d.user_followers
    tweet_timestamp := d.tweet_timestamp
    classification_label := d.classification_label
    confidence_score := d.confidence_score
    model_version := d.model_version
    likes := d.likes
    retweets := d.retweets
    replies := d.replies
    category := d.category
    processed_at := now
    is_active := true }

/-- Embeds `insert_tweet` (postgres_setup.py lines 96–126).  A record whose
label violates the `CHECK` constraint makes `cursor.execute` raise; the
`except` returns `False` and the uncommitted transaction leaves the table
unchanged.  Otherwise the single-statement upsert either updates the row
with the same `tweet_id` in place (per `updateOnConflict`) or appends a new
row, and the method returns `True`. -/
def insert_tweet (table : List TweetRow) (d : TweetData) (now : Nat) :
    Bool × List TweetRow :=
  if labelOk d.classification_label then
    if table.any (fun row => row.tweet_id == d.tweet_id) then
      (true, table.map (fun row =>
        if row.tweet_id == d.tweet_id then updateOnConflict d now row else row))
    else
      (true, table ++ [rowOfData d now])
  else
    (false, table)

/-! ## Text normalizer (main.py lines 294–336)

`main.py` defines `clean_reddit_text` twice; the later definition (lines
294–336) shadows the earlier one (lines 194–267) and is the one every caller
gets.  It is a chain of `re.sub` calls.  We embed `re.sub(pat, repl, s)`
for these concrete patterns by a left-to-right, non-overlapping scan
(`reSub`): at each position a pattern-specific matcher reports the
replacement text and the number of characters consumed (always ≥ 1), exactly
the leftmost-match semantics of `re.sub`. -/

/-- One `re.sub` pass, fuelled by the input length: scan left to right; on a
match emit the replacement and resume after the consumed characters,
otherwise keep the character and move on. -/
def reSubFuel (m : List Char → Option (List Char × Nat)) : Nat → List Char → List Char
  | 0, s => s
  | _ + 1, [] => []
  | fuel + 1, c :: rest =>
    match m (c :: rest) with
    | some (repl, k) => repl ++ reSubFuel m fuel (rest.drop (k - 1))
    | none => c :: reSubFuel m fuel rest

/-- `re.sub` with a positional matcher (see `reSubFuel`). -/
def reSub (m : List Char → Option (List Char × Nat)) (s : List Char) : List Char :=
  reSubFuel m s.length s

/-- Case-insensitive `charsStartWith`; the pattern argument must be given in
lowercase (Python `re.IGNORECASE` on the ASCII literals involved here). -/
def charsStartWithCI : List Char → List Char → Bool
  | [], _ => true
  | _ :: _, [] => false
  | p :: ps, c :: cs => p == c.toLower && charsStartWithCI ps cs

/-- Python `str.strip()`: drop whitespace from both ends. -/
def pyStrip (s : List Char) : List Char :=
  ((s.dropWhile isPyWhite).reverse.dropWhile isPyWhite).reverse

/-- A character admitted by the URL body class
`(?:[a-zA-Z]|[0-9]|[$-_@.&+]|[!*\\(\\),]|(?:%[0-9a-fA-F][0-9a-fA-F]))` of the
URL pattern (main.py line 304).  `[$-_@.&+]` is the ASCII range `$`..`_`
(which already contains `@ . & +`, the digits, the uppercase letters and
`%`, so the `%hh` alternative adds no further characters). -/
def urlChar (c : Char) : Bool :=
  c.isAlpha || c.isDigit ||
  (decide (36 ≤ c.toNat) && decide (c.toNat ≤ 95)) ||
  c == '!' || c == '*' || c == '\\' || c == '(' || c == ')' || c == ','

/-- Matcher for `http[s]?://<urlChar>+` (main.py line 304), replaced by
nothing.  The greedy `[s]?` tries `https://` before `http://`, and the
trailing `+` consumes the maximal run of URL characters. -/
def urlMatch (s : List Char) : Option (List Char × Nat) :=
  let tryScheme (pre : List Char) : Option Nat :=
    if charsStartWith pre s then
      let n := ((s.drop pre.length).takeWhile urlChar).length
      if n = 0 then none else some (pre.length + n)
    else none
  match tryScheme "https://".data with
  | some k => some ([], k)
  | none =>
    match tryScheme "http://".data with
    | some k => some ([], k)
    | none => none

/-- Matcher for the markdown-link pattern `\[([^\]]+)\]\([^)]+\)` (main.py
line 307), replaced by the bracketed label. -/
def mdLinkMatch (s : List Char) : Option (List Char × Nat) :=
  match s with
  | '[' :: rest =>
    let label := rest.takeWhile (fun x => !(x == ']'))
    if label.isEmpty then none
    else
      match rest.drop label.length with
      | ']' :: '(' :: rest2 =>
        let url := rest2.takeWhile (fun x => !(x == ')'))
        if url.isEmpty then none
        else
          match rest2.drop url.length with
          | ')' :: _ => some (label, label.length + url.length + 4)
          | _ => none
      | _ => none
  | _ => none

/-- Matcher for `d([^d]+)d` (single-delimiter emphasis such as `\*([^*]+)\*`
at main.py line 309 and the code-span pattern at line 311), replaced by the
inner text. -/
def wrapped1Match (d : Char) (s : List Char) : Option (List Char × Nat) :=
  match s with
  | c :: rest =>
    if c == d then
      let inner := rest.takeWhile (fun x => !(x == d))
      if inner.isEmpty then none
      else
        match rest.drop inner.length with
        | c2 :: _ => if c2 == d then some (inner, inner.length + 2) else none
        | [] => none
    else none
  | [] => none

/-- Matcher for `dd([^d]+)dd` (double-delimiter emphasis: bold `\*\*([^*]+)\*\*`
at main.py line 308 and strikethrough `~~([^~]+)~~` at line 310), replaced
by the inner text. -/
def wrapped2Match (d : Char) (s : List Char) : Option (List Char × Nat) :=
  match s with
  | c1 :: c2 :: rest =>
    if c1 == d && c2 == d then
      let inner := rest.takeWhile (fun x => !(x == d))
      if inner.isEmpty then none
      else
        match rest.drop inner.length with
        | c3 :: c4 :: _ => if c3 == d && c4 == d then some (inner, inner.length + 4) else none
        | _ => none
    else none
  | _ => none

/-- Matcher replacing a maximal nonempty run of characters satisfying `p`
with `repl` (used for `\n+` → `' '`, `\s+` → `' '` and the emoji class). -/
def runMatch (p : Char → Bool) (repl : List Char) (s : List Char) :
    Option (List Char × Nat) :=
  let n := (s.takeWhile p).length
  if n = 0 then none else some (repl, n)

/-- A character of the emoji class at main.py line 318 (the six code-point
ranges of the pattern). -/
def isEmojiChar (c : Char) : Bool :=
  let n := c.toNat
  (decide (0x1F600 ≤ n) && decide (n ≤ 0x1F64F)) ||
  (decide (0x1F300 ≤ n) && decide (n ≤ 0x1F5FF)) ||
  (decide (0x1F680 ≤ n) && decide (n ≤ 0x1F6FF)) ||
  (decide (0x1F1E0 ≤ n) && decide (n ≤ 0x1F1FF)) ||
  (decide (0x2702 ≤ n) && decide (n ≤ 0x27B0)) ||
  (decide (0x24C2 ≤ n) && decide (n ≤ 0x1F251))

/-- Consume exactly `n` ASCII digits, returning the rest. -/
def digitsExactly : Nat → List Char → Option (List Char)
  | 0, s => some s
  | _ + 1, [] => none
  | n + 1, c :: rest => if c.isDigit then digitsExactly n rest else none

/-- Consume one expected character. -/
def expectChar (c : Char) : List Char → Option (List Char)
  | x :: rest => if x == c then some rest else none
  | [] => none

/-- Matcher for the ISO-timestamp pattern
`\d{4}-\d{2}-\d{2}T\d{2}:\d{2}:\d{2}` (main.py line 321), a fixed-width
(19-character) shape, replaced by nothing. -/
def isoMatch (s : List Char) : Option (List Char × Nat) := do
  let r1 ← digitsExactly 4 s
  let r2 ← expectChar '-' r1
  let r3 ← digitsExactly 2 r2
  let r4 ← expectChar '-' r3
  let r5 ← digitsExactly 2 r4
  let r6 ← expectChar 'T' r5
  let r7 ← digitsExactly 2 r6
  let r8 ← expectChar ':' r7
  let r9 ← digitsExactly 2 r8
  let r10 ← expectChar ':' r9
  let _ ← digitsExactly 2 r10
  pure ([], 19)

/-- After optional whitespace, one of the literals `AM|PM|am|pm` (the tail of
the clock-time pattern at main.py line 322); returns characters consumed.
The greedy `\s*` is exact here because no meridian literal starts with a
whitespace character. -/
def meridianAfterWs (s : List Char) : Option Nat :=
  let nws := (s.takeWhile isPyWhite).length
  let rest := s.drop nws
  if charsStartWith "AM".data rest || charsStartWith "PM".data rest ||
     charsStartWith "am".data rest || charsStartWith "pm".data rest then
    some (nws + 2)
  else none

/-- After `\d{1,2}:` — the rest of the clock pattern
`\d{2}(:\d{2})?\s*(AM|PM|am|pm)`; the optional seconds group is tried greedily
first, as the regex engine does. -/
def clockTail (rest : List Char) : Option Nat :=
  match rest with
  | m1 :: m2 :: rest2 =>
    if m1.isDigit && m2.isDigit then
      let withSeconds : Option Nat :=
        match rest2 with
        | ':' :: s1 :: s2 :: rest3 =>
          if s1.isDigit && s2.isDigit then
            (meridianAfterWs rest3).map (fun k => 3 + k)
          else none
        | _ => none
      match withSeconds with
      | some k => some (2 + k)
      | none => (meridianAfterWs rest2).map (fun k => 2 + k)
    else none
  | _ => none

/-- Matcher for `\d{1,2}:\d{2}(:\d{2})?\s*(AM|PM|am|pm)` (main.py line 322),
replaced by nothing.  `\d{1,2}` greedily takes two digits when the colon
follows, else one (a failed two-digit attempt cannot be rescued by
backtracking, because the second digit is not a colon). -/
def clockMatch (s : List Char) : Option (List Char × Nat) :=
  match s with
  | a :: b :: rest =>
    if a.isDigit && b.isDigit then
      match rest with
      | ':' :: rest2 => (clockTail rest2).map (fun k => ([], 3 + k))
      | _ => none
    else if a.isDigit && b == ':' then
      (clockTail rest).map (fun k => ([], 2 + k))
    else none
  | _ => none

/-- Matcher for the timezone literals `UTC|GMT|EST|PST|CST|MST` (main.py
line 323, case-sensitive), replaced by nothing. -/
def tzMatch (s : List Char) : Option (List Char × Nat) :=
  if charsStartWith "UTC".data s || charsStartWith "GMT".data s ||
     charsStartWith "EST".data s || charsStartWith "PST".data s ||
     charsStartWith "CST".data s || charsStartWith "MST".data s then
    some ([], 3)
  else none

/-- The anchored prefix removal `^(UPDATE|EDIT|BREAKING|URGENT):\s*` with
`re.IGNORECASE` (main.py line 326): it can only fire at the start of the
string, dropping the literal, the colon and the following whitespace. -/
def dropNoisePre (s : List Char) : List Char :=
  let tryLit (lit : List Char) : Option (List Char) :=
    if charsStartWithCI lit s then
      match s.drop lit.length with
      | c :: rest => if c == ':' then some (rest.dropWhile isPyWhite) else none
      | [] => none
    else none
  (tryLit "update".data <|> tryLit "edit".data <|>
   tryLit "breaking".data <|> tryLit "urgent".data).getD s

/-- One of the literals `x-post|crosspost|cross-post` starts here
(case-insensitively). -/
def xpostLiteralAt (s : List Char) : Bool :=
  charsStartWithCI "x-post".data s || charsStartWithCI "crosspost".data s ||
  charsStartWithCI "cross-post".data s

/-- `\s*(x-post|crosspost|cross-post)` matches at this position: optional
whitespace directly followed by one of the literals. -/
def wsThenXpost : List Char → Bool
  | [] => false
  | c :: rest => xpostLiteralAt (c :: rest) || (isPyWhite c && wsThenXpost rest)

/-- The cross-post cut `\s*(x-post|crosspost|cross-post)\s*.*$` with
`re.IGNORECASE` (main.py line 327): everything from the leftmost position
where whitespace leads into one of the literals is removed to the end of the
string (the input contains no newline at this stage of the pipeline, every
`\n` having been collapsed at line 314). -/
def cutXpost : List Char → List Char
  | [] => []
  | c :: rest => if wsThenXpost (c :: rest) then [] else c :: cutXpost rest

/-- The final sentence-ending step (main.py lines 333–334): a nonempty text
not ending in `.`, `!` or `?` gets a period appended. -/
def ensureSentenceEnd (s : List Char) : List Char :=
  match s.getLast? with
  | none => s
  | some c => if c == '.' || c == '!' || c == '?' then s else s ++ ['.']

/-- The substitution chain of the effective `clean_reddit_text` (main.py
lines 298–330), one `re.sub` pass per source line in source order, up to and
including the final `strip()` — everything before the sentence-ending step. -/
def cleanRedditCore (title selftext : List Char) : List Char :=
  let full0 :=
    if !selftext.isEmpty && !(pyStrip selftext).isEmpty then
      title ++ ' ' :: selftext
    else title
  let t1 := reSub urlMatch full0
  let t2 := reSub mdLinkMatch t1
  let t3 := reSub (wrapped2Match '*') t2
  let t4 := reSub (wrapped1Match '*') t3
  let t5 := reSub (wrapped2Match '~') t4
  let t6 := reSub (wrapped1Match (Char.ofNat 96)) t5
  let t7 := reSub (runMatch (fun c => c == '\n') [' ']) t6
  let t8 := reSub (runMatch isPyWhite [' ']) t7
  let t9 := reSub (runMatch isEmojiChar []) t8
  let t10 := reSub isoMatch t9
  let t11 := reSub clockMatch t10
  let t12 := reSub tzMatch t11
  let t13 := dropNoisePre t12
  let t14 := cutXpost t13
  pyStrip t14

/-- The character-list body of the effective `clean_reddit_text` (main.py
lines 294–336): the substitution chain followed by the sentence-ending
step. -/
def cleanRedditChars (title selftext : List Char) : List Char :=
  ensureSentenceEnd (cleanRedditCore title selftext)

/-- Embeds the effective `clean_reddit_text` (the second definition, main.py
lines 294–336, which shadows the first at lines 194–267): combine title and
substantive selftext, run the substitution chain, strip, and ensure a
sentence-ending character. -/
def clean_reddit_text (title : String) (selftext : String) : String :=
  String.mk (cleanRedditChars title.data selftext.data)

/-! ## Theorems about the claims -/

/-- C1 (counterexample): with one cycle already in flight, a manual trigger
of `/force-update` (and likewise `/initialize-data`) is *not* rejected with a
busy signal — the handler reports success and a second concurrent cycle has
started. -/
theorem c1_trigger_busy_counterexample :
    (force_update 1 true).1 ≠ TriggerOutcome.busy ∧
    (initialize_data 1 true).1 ≠ TriggerOutcome.busy ∧
    (force_update 1 true).2 = 2 ∧
    (force_update 1 true).1 = TriggerOutcome.success := by
  decide

/-- C1 (amended): a manual trigger of an ingestion cycle (`POST /force-update`
or `POST /initialize-data`) is never rejected with a busy signal, no matter
how many cycles are in flight: both handlers unconditionally start one more
concurrent cycle, answering success when the cycle completes and a 503 error
when it raises. -/
theorem c1_manual_trigger_always_runs (inFlight : Nat) (cycleOk : Bool) :
    (force_update inFlight cycleOk).1 ≠ TriggerOutcome.busy ∧
    (force_update inFlight cycleOk).2 = inFlight + 1 ∧
    (initialize_data inFlight cycleOk).1 ≠ TriggerOutcome.busy ∧
    (initialize_data inFlight cycleOk).2 = inFlight + 1 ∧
    ((force_update inFlight cycleOk).1 = TriggerOutcome.success ↔ cycleOk = true) := by
  cases cycleOk <;> simp [force_update, initialize_data]

/-- C2 (counterexample): after `startup_tasks` completes, no repeating
background task is running — the `asyncio.create_task(hourly_update_task())`
call is commented out, so `background_task` stays `None`. -/
theorem c2_scheduler_counterexample :
    (startup_tasks { svmPresent := true, vecPresent := true }).background_task_running
      = false := rfl

/-- C2 (amended): the scheduler loop body of `hourly_update_task` does catch
any exception of the ingestion cycle and waits 3600 seconds before the next
tick, but startup never launches the task: after `startup_tasks` no
background task is running, and ingestion happens only through the manual
endpoints. -/
theorem c2_scheduler_survives_but_unstarted (fs : ArtifactFS) (r : Except String Unit) :
    (startup_tasks fs).background_task_running = false ∧
    (hourly_update_step r).loopContinues = true ∧
    (hourly_update_step r).sleepSeconds = 3600 := by
  refine ⟨rfl, ?_, ?_⟩ <;> cases r <;> rfl

/-- C7: `classify_text` takes the statistical path only when both artifacts
are present; with either artifact absent every call takes the keyword
fallback; and `/model-status` reports `"ready"` exactly when both loaded and
`"fallback"` otherwise. -/
theorem c7_model_path_requires_both_artifacts (fs : ArtifactFS) :
    (classify_text_path fs (startup_tasks fs) = ClassifyPath.model →
      fs.svmPresent = true ∧ fs.vecPresent = true) ∧
    (fs.svmPresent = false ∨ fs.vecPresent = false →
      classify_text_path fs (startup_tasks fs) = ClassifyPath.keywords) ∧
    ((model_status (startup_tasks fs)).status = "ready" ↔
      fs.svmPresent = true ∧ fs.vecPresent = true) ∧
    ((model_status (startup_tasks fs)).status = "fallback" ↔
      ¬(fs.svmPresent = true ∧ fs.vecPresent = true)) := by
  rcases fs with ⟨s, v⟩
  cases s <;> cases v <;> decide

/-- C7 witness: with the SVM artifact absent but the vectorizer present,
every classification call takes the keyword path. -/
theorem c7_model_path_witness :
    classify_text_path { svmPresent := false, vecPresent := true }
      (startup_tasks { svmPresent := false, vecPresent := true }) = ClassifyPath.keywords :=
  (c7_model_path_requires_both_artifacts
    { svmPresent := false, vecPresent := true }).2.1 (Or.inl rfl)

/-- C6 (counterexample): on the spec's end-to-end input the Normalizer's
output is `"Official USGS confirms magnitude 6.5 earthquake."` — the
`BREAKING:` prefix is stripped by the noise-prefix substitution, so the
output does not start with `"Breaking"`. -/
theorem c6_starts_breaking_counterexample :
    clean_reddit_text "BREAKING: Official USGS confirms magnitude 6.5 earthquake" "" =
      "Official USGS confirms magnitude 6.5 earthquake." ∧
    charsStartWith "Breaking".data
      (clean_reddit_text "BREAKING: Official USGS confirms magnitude 6.5 earthquake" "").data
      = false := by
  decide

/-- C6 (amended): for the title `"BREAKING: Official USGS confirms magnitude
6.5 earthquake"` with empty body, the Normalizer's output is non-empty,
starts with `"Official"` (the `BREAKING:` prefix having been stripped), and
ends with a period. -/
theorem c6_normalizer_endtoend :
    clean_reddit_text "BREAKING: Official USGS confirms magnitude 6.5 earthquake" "" ≠ "" ∧
    charsStartWith "Official".data
      (clean_reddit_text "BREAKING: Official USGS confirms magnitude 6.5 earthquake" "").data
      = true ∧
    (clean_reddit_text "BREAKING: Official USGS confirms magnitude 6.5 earthquake" "").data.getLast?
      = some '.' := by
  decide

/-- The sentence-ending step yields, on any nonempty output, a final
character among `.`, `!`, `?`. -/
theorem ensureSentenceEnd_getLast (l : List Char) (h : ensureSentenceEnd l ≠ []) :
    (ensureSentenceEnd l).getLast? = some '.' ∨
    (ensureSentenceEnd l).getLast? = some '!' ∨
    (ensureSentenceEnd l).getLast? = some '?' := by
  cases hl : l.getLast? with
  | none =>
    have hnil : l = [] := List.getLast?_eq_none_iff.mp hl
    subst hnil
    exact absurd rfl h
  | some c =>
    have hval : ensureSentenceEnd l =
        if (c == '.' || c == '!' || c == '?') = true then l else l ++ ['.'] := by
      unfold ensureSentenceEnd
      rw [hl]
    by_cases hc : (c == '.' || c == '!' || c == '?') = true
    · rw [hval, if_pos hc, hl]
      rcases Bool.or_eq_true_iff.mp hc with hc' | hc'
      · rcases Bool.or_eq_true_iff.mp hc' with hc'' | hc''
        · exact Or.inl (by rw [eq_of_beq hc''])
        · exact Or.inr (Or.inl (by rw [eq_of_beq hc'']))
      · exact Or.inr (Or.inr (by rw [eq_of_beq hc']))
    · rw [hval, if_neg hc]
      exact Or.inl (List.getLast?_concat l)

/-- The character-list normalizer yields, on any nonempty output, a final
character among `.`, `!`, `?`. -/
theorem cleanRedditChars_getLast (t s : List Char) (h : cleanRedditChars t s ≠ []) :
    (cleanRedditChars t s).getLast? = some '.' ∨
    (cleanRedditChars t s).getLast? = some '!' ∨
    (cleanRedditChars t s).getLast? = some '?' := by
  unfold cleanRedditChars at h ⊢
  revert h
  generalize cleanRedditCore t s = l
  exact fun h => ensureSentenceEnd_getLast l h

/-- C5 (counterexample): the non-empty title `"BREAKING:"` (empty body)
produces the *empty* string — the anchored noise-prefix substitution removes
the whole title, so the Normalizer's output is not always non-empty on
non-empty titles. -/
theorem c5_nonempty_counterexample :
    ("BREAKING:" : String) ≠ "" ∧ clean_reddit_text "BREAKING:" "" = "" := by
  decide

/-- C5 (amended): the effective `clean_reddit_text` (the second definition,
which shadows the first) is total — it is a pure function returning a result
on every title/body, with no exception path (and also no internal-error
fallback to the original title: that `try/except` belongs only to the
shadowed first definition) — but its output can be empty for a non-empty
title; whenever the output is non-empty it ends with `.`, `!` or `?`. -/
theorem c5_normalizer_total_and_punctuated (title selftext : String)
    (h : clean_reddit_text title selftext ≠ "") :
    (clean_reddit_text title selftext).data.getLast? = some '.' ∨
    (clean_reddit_text title selftext).data.getLast? = some '!' ∨
    (clean_reddit_text title selftext).data.getLast? = some '?' := by
  have e1 : clean_reddit_text title selftext =
      String.mk (cleanRedditChars title.data selftext.data) := rfl
  rw [e1] at h ⊢
  have hne : cleanRedditChars title.data selftext.data ≠ [] := by
    intro he
    apply h
    rw [he]
  have hK := cleanRedditChars_getLast title.data selftext.data hne
  generalize hY : cleanRedditChars title.data selftext.data = Y at hK ⊢
  have e3 : (String.mk Y).data = Y := rfl
  rw [e3]
  exact hK

/-- C5 witness: the non-empty output on title `"hello"` ends with a period. -/
theorem c5_normalizer_witness :
    clean_reddit_text "hello" "" ≠ "" ∧
    ((clean_reddit_text "hello" "").data.getLast? = some '.' ∨
     (clean_reddit_text "hello" "").data.getLast? = some '!' ∨
     (clean_reddit_text "hello" "").data.getLast? = some '?') :=
  ⟨by decide, c5_normalizer_total_and_punctuated "hello" "" (by decide)⟩

/-- `find?` returns the element at index `i` when everything before `i`
fails the predicate and index `i` satisfies it. -/
theorem find?_of_take_all_neg {α : Type} (p : α → Bool) (l : List α) (i : Nat)
    (hi : i < l.length) (hall : ((l.take i).all (fun x => !(p x))) = true)
    (hp : p (l.get ⟨i, hi⟩) = true) :
    l.find? p = some (l.get ⟨i, hi⟩) := by
  induction l generalizing i with
  | nil => exact absurd hi (by simp)
  | cons a t ih =>
    cases i with
    | zero =>
      simp only [List.get] at hp
      rw [List.find?_cons_of_pos _ hp]
      rfl
    | succ n =>
      rw [List.take_succ_cons, List.all_cons] at hall
      obtain ⟨ha, hall'⟩ := Bool.and_eq_true_iff.mp hall
      have hna : ¬ (p a = true) := by simp at ha; simp [ha]
      rw [List.find?_cons_of_neg _ hna]
      exact ih n (by simpa using hi) hall' hp

/-- C8: `detect_disaster_category` returns the first category in the fixed
source order whose keyword set has a case-insensitive substring match in the
text, `'general'` when no keyword set matches, and in particular maps
`"7.2 magnitude earthquake hits coast"` to `'earthquake'` and
`"no keywords here"` to `'general'`. -/
theorem c8_category_first_match (text : String) :
    (∀ i : Fin categories.length,
      ((categories.take i).all (fun p => !(anyKeywordIn p.2 (lowerString text)))) = true →
      anyKeywordIn (categories.get i).2 (lowerString text) = true →
      detect_disaster_category text = (categories.get i).1) ∧
    ((categories.all (fun p => !(anyKeywordIn p.2 (lowerString text)))) = true →
      detect_disaster_category text = "general") ∧
    detect_disaster_category "7.2 magnitude earthquake hits coast" = "earthquake" ∧
    detect_disaster_category "no keywords here" = "general" := by
  refine ⟨?_, ?_, by decide, by decide⟩
  · intro i hall hp
    unfold detect_disaster_category
    rw [find?_of_take_all_neg (fun p => anyKeywordIn p.2 (lowerString text))
      categories i i.isLt hall hp]
  · intro hall
    unfold detect_disaster_category
    rw [List.find?_eq_none.mpr]
    intro p hp
    have := List.all_eq_true.mp hall p hp
    simp at this
    simp [this]

/-- C8 witness: a text matching the second category (`flood`) and no earlier
one is mapped to `'flood'`. -/
theorem c8_category_witness :
    detect_disaster_category "flood warning" = "flood" :=
  (c8_category_first_match "flood warning").1 ⟨1, by decide⟩ (by decide) (by decide)

/-! ### Dict-semantics lemmas for the deduplication step -/

/-- Every entry of the dict has its value's `tweet_id` as its key, and
`dictInsert` (keyed by the value's own `tweet_id`) preserves this. -/
theorem dictInsert_coherent (acc : List (String × RedditPostData)) (v : RedditPostData)
    (hco : ∀ q ∈ acc, q.2.tweet_id = q.1) :
    ∀ q ∈ dictInsert acc v.tweet_id v, q.2.tweet_id = q.1 := by
  intro q hq
  unfold dictInsert at hq
  split at hq
  · obtain ⟨q', hq', hfq⟩ := List.mem_map.mp hq
    rw [← hfq]
    by_cases hk : (q'.1 == v.tweet_id) = true
    · rw [if_pos hk]
    · rw [if_neg hk]
      exact hco q' hq'
  · rcases List.mem_append.mp hq with h1 | h2
    · exact hco q h1
    · rw [List.mem_singleton.mp h2]

/-- `dictInsert` keeps the keys duplicate-free. -/
theorem dictInsert_keys_nodup (acc : List (String × RedditPostData)) (v : RedditPostData)
    (hnd : (acc.map Prod.fst).Nodup) :
    ((dictInsert acc v.tweet_id v).map Prod.fst).Nodup := by
  unfold dictInsert
  split
  case isTrue hmem =>
    have hkeys : (acc.map (fun p => if p.1 == v.tweet_id then (v.tweet_id, v) else p)).map Prod.fst
        = acc.map Prod.fst := by
      rw [List.map_map]
      apply List.map_congr_left
      intro q _
      by_cases hk : (q.1 == v.tweet_id) = true
      · simp only [Function.comp_apply, if_pos hk]
        exact (eq_of_beq hk).symm
      · simp only [Function.comp_apply, if_neg hk]
    rw [hkeys]
    exact hnd
  case isFalse hmem =>
    rw [List.map_append]
    refine List.Nodup.append hnd (by simp) ?_
    intro a ha ha'
    have ha2 : a = v.tweet_id := by simpa using ha'
    obtain ⟨q, hq, hq1⟩ := List.mem_map.mp ha
    apply hmem
    refine List.any_eq_true.mpr ⟨q, hq, ?_⟩
    exact beq_iff_eq.mpr (hq1.trans ha2)

/-- Filtering the dict's values by a key after an update-in-place: the
updated value is the unique entry with its key, other keys are untouched. -/
theorem values_filter_update (acc : List (String × RedditPostData)) (v : RedditPostData)
    (k : String) (hco : ∀ q ∈ acc, q.2.tweet_id = q.1)
    (hnd : (acc.map Prod.fst).Nodup)
    (hmem : acc.any (fun p => p.1 == v.tweet_id) = true) :
    ((acc.map (fun p => if p.1 == v.tweet_id then (v.tweet_id, v) else p)).map
        (fun p => p.2)).filter (fun x => x.tweet_id == k) =
      if (v.tweet_id == k) = true then [v]
      else (acc.map (fun p => p.2)).filter (fun x => x.tweet_id == k) := by
  induction acc with
  | nil => simp at hmem
  | cons a t ih =>
    have hcot : ∀ q ∈ t, q.2.tweet_id = q.1 := fun q hq => hco q (List.mem_cons_of_mem a hq)
    have hndt : (t.map Prod.fst).Nodup := (List.nodup_cons.mp hnd).2
    have hat : a.1 ∉ t.map Prod.fst := (List.nodup_cons.mp hnd).1
    have haco : a.2.tweet_id = a.1 := hco a (List.mem_cons_self a t)
    by_cases hk : (a.1 == v.tweet_id) = true
    · -- the head is the (unique) entry being updated
      have hkey : a.1 = v.tweet_id := eq_of_beq hk
      have htid : (t.map (fun p => if p.1 == v.tweet_id then (v.tweet_id, v) else p)) = t := by
        refine (List.map_congr_left ?_).trans (List.map_id t)
        intro q hq
        have hqn : ¬ ((q.1 == v.tweet_id) = true) := by
          intro hq1
          exact hat (hkey ▸ (eq_of_beq hq1) ▸ List.mem_map_of_mem Prod.fst hq)
        rw [if_neg hqn]
        rfl
      simp only [List.map_cons, if_pos hk, htid, List.filter_cons]
      by_cases hvk : (v.tweet_id == k) = true
      · have htval : (t.map (fun p => p.2)).filter (fun x => x.tweet_id == k) = [] := by
          rw [List.filter_eq_nil_iff]
          intro x hx
          obtain ⟨q, hq, hq2⟩ := List.mem_map.mp hx
          intro hbeq
          have hq1 : q.1 = v.tweet_id := by
            calc q.1 = q.2.tweet_id := (hcot q hq).symm
              _ = x.tweet_id := by rw [hq2]
              _ = k := eq_of_beq hbeq
              _ = v.tweet_id := (eq_of_beq hvk).symm
          apply hat
          rw [hkey, ← hq1]
          exact List.mem_map_of_mem Prod.fst hq
        simp [hvk, htval]
      · -- neither the new value nor the old head survives the filter
        have hak : ¬ ((a.2.tweet_id == k) = true) := by
          rw [haco, hkey]
          exact hvk
        simp [hvk, hak]
    · -- the head is untouched; the updated entry lives in the tail
      have hmt : t.any (fun p => p.1 == v.tweet_id) = true := by
        rw [List.any_cons] at hmem
        rcases Bool.or_eq_true_iff.mp hmem with h | h
        · exact absurd h hk
        · exact h
      have hrec := ih hcot hndt hmt
      simp only [List.map_cons, if_neg hk, List.filter_cons]
      by_cases hvk : (v.tweet_id == k) = true
      · have hak : ¬ ((a.2.tweet_id == k) = true) := by
          rw [haco]
          intro hk1
          exact hk (beq_iff_eq.mpr ((eq_of_beq hk1).trans (eq_of_beq hvk).symm))
        rw [if_neg hak]
        rw [if_pos hvk]
        rw [if_pos hvk] at hrec
        exact hrec
      · rw [if_neg hvk]
        rw [if_neg hvk] at hrec
        rw [hrec]

/-- Filtering the dict's values by a key after a fresh-key append. -/
theorem values_filter_append (acc : List (String × RedditPostData)) (v : RedditPostData)
    (k : String) (hco : ∀ q ∈ acc, q.2.tweet_id = q.1)
    (hmem : acc.any (fun p => p.1 == v.tweet_id) = false) :
    (((acc ++ [(v.tweet_id, v)]).map (fun p => p.2)).filter (fun x => x.tweet_id == k)) =
      if (v.tweet_id == k) = true then [v]
      else (acc.map (fun p => p.2)).filter (fun x => x.tweet_id == k) := by
  rw [List.map_append, List.filter_append]
  by_cases hvk : (v.tweet_id == k) = true
  · have hbase : (acc.map (fun p => p.2)).filter (fun x => x.tweet_id == k) = [] := by
      rw [List.filter_eq_nil_iff]
      intro x hx
      obtain ⟨q, hq, hq2⟩ := List.mem_map.mp hx
      intro hbeq
      have hq1 : q.1 = v.tweet_id := by
        calc q.1 = q.2.tweet_id := (hco q hq).symm
          _ = x.tweet_id := by rw [hq2]
          _ = k := eq_of_beq hbeq
          _ = v.tweet_id := (eq_of_beq hvk).symm
      have hcontra : acc.any (fun p => p.1 == v.tweet_id) = true :=
        List.any_eq_true.mpr ⟨q, hq, beq_iff_eq.mpr hq1⟩
      rw [hmem] at hcontra
      exact Bool.false_ne_true hcontra
    simp [hvk, hbase]
  · simp [hvk]

/-- `dictInsert` keyed by the value's `tweet_id`: the inserted value becomes
the unique entry under its key; all other keys keep their entries. -/
theorem dictInsert_values_filter (acc : List (String × RedditPostData)) (v : RedditPostData)
    (k : String) (hco : ∀ q ∈ acc, q.2.tweet_id = q.1)
    (hnd : (acc.map Prod.fst).Nodup) :
    ((dictInsert acc v.tweet_id v).map (fun p => p.2)).filter (fun x => x.tweet_id == k) =
      if (v.tweet_id == k) = true then [v]
      else (acc.map (fun p => p.2)).filter (fun x => x.tweet_id == k) := by
  unfold dictInsert
  by_cases hmem : acc.any (fun p => p.1 == v.tweet_id) = true
  · rw [if_pos hmem]
    exact values_filter_update acc v k hco hnd hmem
  · rw [if_neg hmem]
    exact values_filter_append acc v k hco (Bool.eq_false_iff.mpr hmem)

/-- The fold building the dict preserves key/value coherence and
duplicate-free keys. -/
theorem foldl_dictInsert_invariant (posts : List RedditPostData)
    (acc : List (String × RedditPostData))
    (hco : ∀ q ∈ acc, q.2.tweet_id = q.1)
    (hnd : (acc.map Prod.fst).Nodup) :
    (∀ q ∈ posts.foldl (fun m post => dictInsert m post.tweet_id post) acc,
        q.2.tweet_id = q.1) ∧
    ((posts.foldl (fun m post => dictInsert m post.tweet_id post) acc).map Prod.fst).Nodup := by
  induction posts generalizing acc with
  | nil => exact ⟨hco, hnd⟩
  | cons p rest ih =>
    rw [List.foldl_cons]
    exact ih (dictInsert acc p.tweet_id p)
      (dictInsert_coherent acc p hco) (dictInsert_keys_nodup acc p hnd)

/-- The values of the dict built by the fold, filtered by a key, are the last
post of the batch with that key — or the accumulator's entries when the batch
has none. -/
theorem foldl_dictInsert_values_filter (posts : List RedditPostData)
    (acc : List (String × RedditPostData)) (k : String)
    (hco : ∀ q ∈ acc, q.2.tweet_id = q.1)
    (hnd : (acc.map Prod.fst).Nodup) :
    ((posts.foldl (fun m post => dictInsert m post.tweet_id post) acc).map
        (fun p => p.2)).filter (fun x => x.tweet_id == k) =
      match (posts.filter (fun p => p.tweet_id == k)).getLast? with
      | some q => [q]
      | none => (acc.map (fun p => p.2)).filter (fun x => x.tweet_id == k) := by
  induction posts generalizing acc with
  | nil => rfl
  | cons p rest ih =>
    rw [List.foldl_cons]
    rw [ih (dictInsert acc p.tweet_id p)
      (dictInsert_coherent acc p hco) (dictInsert_keys_nodup acc p hnd)]
    rw [List.filter_cons]
    by_cases hp : (p.tweet_id == k) = true
    · rw [if_pos hp]
      cases hrf : rest.filter (fun x => x.tweet_id == k) with
      | nil =>
        simp only [List.getLast?_nil, List.getLast?_singleton]
        rw [dictInsert_values_filter acc p k hco hnd, if_pos hp]
      | cons b l' =>
        rw [List.getLast?_cons_cons]
        cases hgl : (b :: l').getLast? with
        | none => exact absurd (List.getLast?_eq_none_iff.mp hgl) (by simp)
        | some q => rfl
    · rw [if_neg hp]
      rw [dictInsert_values_filter acc p k hco hnd, if_neg hp]

/-- C9: the batch deduplication `{post['tweet_id']: post for post in
all_posts}.values()` yields, for every identifier, exactly the last post
with that identifier from the batch (in iteration order), hence exactly one
entry per identifier — and the output's identifiers are duplicate-free. -/
theorem c9_dedup_exactly_one_last_wins (allPosts : List RedditPostData) (k : String) :
    ((uniquePosts allPosts).filter (fun p => p.tweet_id == k)) =
      ((allPosts.filter (fun p => p.tweet_id == k)).getLast?).toList ∧
    ((uniquePosts allPosts).map (fun p => p.tweet_id)).Nodup := by
  constructor
  · unfold uniquePosts
    rw [foldl_dictInsert_values_filter allPosts [] k (by simp) (by simp)]
    cases h : (allPosts.filter (fun p => p.tweet_id == k)).getLast? <;> simp
  · unfold uniquePosts
    obtain ⟨hco, hnd⟩ := foldl_dictInsert_invariant allPosts [] (by simp) (by simp)
    have hmapeq : (allPosts.foldl (fun m post => dictInsert m post.tweet_id post) []).map
          ((fun p : RedditPostData => p.tweet_id) ∘ (fun p : String × RedditPostData => p.2)) =
        (allPosts.foldl (fun m post => dictInsert m post.tweet_id post) []).map Prod.fst :=
      List.map_congr_left (fun q hq => hco q hq)
    rw [List.map_map, hmapeq]
    exact hnd

/-! ### Upsert lemmas for the `tweets` table -/

/-- The conflict update never changes the row key. -/
theorem updateOnConflict_tweet_id (d : TweetData) (now : Nat) (r : TweetRow) :
    (updateOnConflict d now r).tweet_id = r.tweet_id := rfl

/-- A conditional conflict update never changes the row key. -/
theorem condUpdate_tweet_id (d : TweetData) (now : Nat) (r : TweetRow) :
    (if r.tweet_id == d.tweet_id then updateOnConflict d now r else r).tweet_id
      = r.tweet_id := by
  by_cases h : (r.tweet_id == d.tweet_id) = true
  · rw [if_pos h]
    rfl
  · rw [if_neg h]

/-- On a table already holding the key, `insert_tweet` with a CHECK-valid
label takes the `ON CONFLICT` update path. -/
theorem insert_tweet_existing (table : List TweetRow) (d : TweetData) (now : Nat)
    (old : TweetRow) (hok : labelOk d.classification_label = true)
    (hold : old ∈ table) (hid : old.tweet_id = d.tweet_id) :
    insert_tweet table d now =
      (true, table.map (fun row =>
        if row.tweet_id == d.tweet_id then updateOnConflict d now row else row)) := by
  have hany : table.any (fun row => row.tweet_id == d.tweet_id) = true :=
    List.any_eq_true.mpr ⟨old, hold, beq_iff_eq.mpr hid⟩
  unfold insert_tweet
  rw [if_pos hok, if_pos hany]

/-- The conflict update leaves the key column of the whole table untouched. -/
theorem update_map_ids (table : List TweetRow) (d : TweetData) (now : Nat) :
    ((table.map (fun row =>
        if row.tweet_id == d.tweet_id then updateOnConflict d now row else row)).map
      (fun r => r.tweet_id)) = table.map (fun r => r.tweet_id) := by
  rw [List.map_map]
  exact List.map_congr_left (fun r _ => condUpdate_tweet_id d now r)

/-- Filtering by a predicate on the key commutes with a key-preserving map. -/
theorem filter_key_map (f : TweetRow → TweetRow)
    (hf : ∀ r, (f r).tweet_id = r.tweet_id) (p : String → Bool) (table : List TweetRow) :
    (table.map f).filter (fun r => p r.tweet_id) =
      (table.filter (fun r => p r.tweet_id)).map f := by
  induction table with
  | nil => rfl
  | cons a t ih =>
    rw [List.map_cons, List.filter_cons, List.filter_cons, hf a]
    by_cases hp : p a.tweet_id = true
    · rw [if_pos hp, if_pos hp, List.map_cons, ih]
    · rw [if_neg hp, if_neg hp, ih]

/-- In a table with duplicate-free keys, filtering by the key of a member row
yields exactly that row. -/
theorem filter_eq_singleton_of_nodup (table : List TweetRow) (k : String)
    (hnd : (table.map (fun r => r.tweet_id)).Nodup) (old : TweetRow)
    (hold : old ∈ table) (hk : old.tweet_id = k) :
    table.filter (fun r => r.tweet_id == k) = [old] := by
  induction table with
  | nil => cases hold
  | cons a t ih =>
    rw [List.map_cons] at hnd
    obtain ⟨hhd, hndt⟩ := List.nodup_cons.mp hnd
    rw [List.filter_cons]
    by_cases ha : (a.tweet_id == k) = true
    · rw [if_pos ha]
      have htnil : t.filter (fun r => r.tweet_id == k) = [] := by
        rw [List.filter_eq_nil_iff]
        intro x hx hbx
        apply hhd
        have hxa : a.tweet_id = x.tweet_id := (eq_of_beq ha).trans (eq_of_beq hbx).symm
        rw [hxa]
        exact List.mem_map_of_mem (fun r => r.tweet_id) hx
      rcases List.mem_cons.mp hold with h | h
      · rw [htnil, h]
      · exfalso
        have hmem : old ∈ t.filter (fun r => r.tweet_id == k) :=
          List.mem_filter.mpr ⟨h, beq_iff_eq.mpr hk⟩
        rw [htnil] at hmem
        cases hmem
    · rw [if_neg ha]
      have holdt : old ∈ t := by
        rcases List.mem_cons.mp hold with h | h
        · rw [h] at hk
          exact absurd (beq_iff_eq.mpr hk) ha
        · exact h
      exact ih hndt holdt

/-- C3: upserting a CHECK-valid record whose `tweet_id` is already present —
twice, at times `t1` then `t2` — succeeds both times and leaves exactly one
row for that identifier: the original row with only `classification_label`,
`confidence_score`, `category` overwritten and `processed_at` advanced to
`t2`; its stored text, username, timestamp, engagement counters and active
flag keep their original values, all other rows and the table length are
unchanged. -/
theorem c3_upsert_frame_idempotent (table : List TweetRow) (d : TweetData)
    (t1 t2 : Nat) (old : TweetRow)
    (hok : labelOk d.classification_label = true)
    (hnd : (table.map (fun r => r.tweet_id)).Nodup)
    (hold : old ∈ table) (hid : old.tweet_id = d.tweet_id)
    (hact : old.is_active = true) :
    (insert_tweet table d t1).1 = true ∧
    (insert_tweet (insert_tweet table d t1).2 d t2).1 = true ∧
    ((insert_tweet (insert_tweet table d t1).2 d t2).2.filter
        (fun r => r.tweet_id == d.tweet_id)) = [updateOnConflict d t2 old] ∧
    ((insert_tweet (insert_tweet table d t1).2 d t2).2.filter
        (fun r => !(r.tweet_id == d.tweet_id))) =
      table.filter (fun r => !(r.tweet_id == d.tweet_id)) ∧
    (insert_tweet (insert_tweet table d t1).2 d t2).2.length = table.length ∧
    (updateOnConflict d t2 old).text = old.text ∧
    (updateOnConflict d t2 old).username = old.username ∧
    (updateOnConflict d t2 old).tweet_timestamp = old.tweet_timestamp ∧
    (updateOnConflict d t2 old).likes = old.likes ∧
    (updateOnConflict d t2 old).retweets = old.retweets ∧
    (updateOnConflict d t2 old).replies = old.replies ∧
    (updateOnConflict d t2 old).user_followers = old.user_followers ∧
    (updateOnConflict d t2 old).is_active = true ∧
    (updateOnConflict d t2 old).classification_label = d.classification_label ∧
    (updateOnConflict d t2 old).confidence_score = d.confidence_score ∧
    (updateOnConflict d t2 old).category = d.category ∧
    (updateOnConflict d t2 old).processed_at = t2 := by
  have e1 := insert_tweet_existing table d t1 old hok hold hid
  have hold1 : (if old.tweet_id == d.tweet_id then updateOnConflict d t1 old else old)
      ∈ table.map (fun row =>
        if row.tweet_id == d.tweet_id then updateOnConflict d t1 row else row) :=
    List.mem_map_of_mem _ hold
  have hid1 : (if old.tweet_id == d.tweet_id then updateOnConflict d t1 old else old).tweet_id
      = d.tweet_id := by
    rw [condUpdate_tweet_id]
    exact hid
  have e2 := insert_tweet_existing
    (table.map (fun row =>
      if row.tweet_id == d.tweet_id then updateOnConflict d t1 row else row))
    d t2 _ hok hold1 hid1
  have hcomp : ((table.map (fun row =>
        if row.tweet_id == d.tweet_id then updateOnConflict d t1 row else row)).map
      (fun row => if row.tweet_id == d.tweet_id then updateOnConflict d t2 row else row)) =
      table.map (fun row =>
        if row.tweet_id == d.tweet_id then updateOnConflict d t2 row else row) := by
    rw [List.map_map]
    apply List.map_congr_left
    intro r _
    by_cases h : (r.tweet_id == d.tweet_id) = true
    · simp only [Function.comp_apply, if_pos h]
      rw [if_pos (show ((updateOnConflict d t1 r).tweet_id == d.tweet_id) = true from h)]
      rfl
    · simp only [Function.comp_apply, if_neg h]
  refine ⟨by rw [e1], by rw [e1, e2], ?_, ?_, ?_,
    rfl, rfl, rfl, rfl, rfl, rfl, rfl, by rw [← hact]; rfl, rfl, rfl, rfl, rfl⟩
  · rw [e1, e2]
    show ((table.map _).map _).filter _ = _
    rw [hcomp]
    rw [filter_key_map (fun row =>
        if row.tweet_id == d.tweet_id then updateOnConflict d t2 row else row)
      (condUpdate_tweet_id d t2) (fun s => s == d.tweet_id) table]
    rw [filter_eq_singleton_of_nodup table d.tweet_id hnd old hold hid]
    rw [List.map_singleton]
    rw [if_pos (beq_iff_eq.mpr hid)]
  · rw [e1, e2]
    show ((table.map _).map _).filter _ = _
    rw [hcomp]
    rw [filter_key_map (fun row =>
        if row.tweet_id == d.tweet_id then updateOnConflict d t2 row else row)
      (condUpdate_tweet_id d t2) (fun s => !(s == d.tweet_id)) table]
    refine (List.map_congr_left ?_).trans (List.map_id _)
    intro r hr
    have hrneg : (!(r.tweet_id == d.tweet_id)) = true := (List.mem_filter.mp hr).2
    rw [if_neg (by simpa using hrneg)]
    rfl
  · rw [e1, e2]
    show ((table.map _).map _).length = _
    rw [List.length_map, List.length_map]

/-- C10: the `CHECK (classification_label IN ('verified','rumor'))` constraint
is an invariant of the table under `insert_tweet`, and a record carrying the
failure-safe label `'unknown'` is rejected: `insert_tweet` returns `False`
and the table is unchanged, so `'unknown'` never reaches durable storage. -/
theorem c10_label_check_invariant (table : List TweetRow) (d : TweetData) (now : Nat)
    (hval : ∀ r ∈ table, labelOk r.classification_label = true) :
    (∀ r ∈ (insert_tweet table d now).2, labelOk r.classification_label = true) ∧
    (d.classification_label = "unknown" → insert_tweet table d now = (false, table)) := by
  constructor
  · intro r hr
    unfold insert_tweet at hr
    by_cases hok : labelOk d.classification_label = true
    · rw [if_pos hok] at hr
      by_cases hany : table.any (fun row => row.tweet_id == d.tweet_id) = true
      · rw [if_pos hany] at hr
        obtain ⟨r', hr', hfr⟩ := List.mem_map.mp hr
        rw [← hfr]
        by_cases hidr : (r'.tweet_id == d.tweet_id) = true
        · rw [if_pos hidr]
          exact hok
        · rw [if_neg hidr]
          exact hval r' hr'
      · rw [if_neg hany] at hr
        rcases List.mem_append.mp hr with h1 | h2
        · exact hval r h1
        · rw [List.mem_singleton.mp h2]
          exact hok
    · rw [if_neg hok] at hr
      exact hval r hr
  · intro hu
    have hno : ¬ (labelOk d.classification_label = true) := by
      rw [hu]
      decide
    unfold insert_tweet
    rw [if_neg hno]

/-- A concrete stored row used by the upsert witnesses. -/
def sampleRow : TweetRow :=
  { tweet_id := "reddit_a1b2", text := "Flood warning issued for the coast."
    username := "u/reporter", user_followers := 0, tweet_timestamp := "2024-03-01T10:00:00"
    classification_label := "verified", confidence_score := 8/10, model_version := "v2.0"
    likes := 42, retweets := 0, replies := 7, category := "flood"
    processed_at := 11, is_active := true }

/-- A concrete re-ingested record for the same identifier. -/
def sampleUpd : TweetData :=
  { tweet_id := "reddit_a1b2", text := "Flood warning issued for the coast. (v2)"
    username := "u/reporter2", user_followers := 3, tweet_timestamp := "2024-03-01T10:05:00"
    classification_label := "rumor", confidence_score := 6/10, category := "earthquake"
    model_version := "v2.0", likes := 77, retweets := 1, replies := 9 }

/-- C3 witness: upserting `sampleUpd` twice over a one-row table holding its
identifier leaves exactly the conflict-updated original row. -/
theorem c3_upsert_witness :
    ((insert_tweet (insert_tweet [sampleRow] sampleUpd 20).2 sampleUpd 21).2.filter
        (fun r => r.tweet_id == sampleUpd.tweet_id)) = [updateOnConflict sampleUpd 21 sampleRow] ∧
    (updateOnConflict sampleUpd 21 sampleRow).likes = sampleRow.likes :=
  ⟨(c3_upsert_frame_idempotent [sampleRow] sampleUpd 20 21 sampleRow (by decide)
      (by simp) (List.mem_singleton.mpr rfl) rfl rfl).2.2.1,
   (c3_upsert_frame_idempotent [sampleRow] sampleUpd 20 21 sampleRow (by decide)
      (by simp) (List.mem_singleton.mpr rfl) rfl rfl).2.2.2.2.2.2.2.2.1⟩

/-- A concrete record carrying the failure-safe classification result
(`label = "unknown"`, `confidence = 0.5`). -/
def unknownSample : TweetData :=
  { tweet_id := "reddit_zz9", text := "mystery post", username := "u/ghost"
    user_followers := 0, tweet_timestamp := "2024-03-02T00:00:00"
    classification_label := "unknown", confidence_score := 1/2, category := "general"
    model_version := "v2.0", likes := 0, retweets := 0, replies := 0 }

/-- C10 witness: the failure-safe `'unknown'` record is rejected on the empty
table — `insert_tweet` returns `False` and stores nothing. -/
theorem c10_unknown_witness :
    insert_tweet [] unknownSample 7 = (false, []) :=
  (c10_label_check_invariant [] unknownSample 7 (by simp)).2 rfl

/-- C4: every fallback-classifier result has confidence in `[0, 1]`; the
majority branches compute the exact documented formulas
(`min(0.95, 0.60 + 0.08·verifiedCount + min(0.15, wordCount/200))` for
verified-majority, `min(0.90, 0.55 + 0.06·rumorCount + min(0.10,
0.03·rumorCount))` for rumor-majority); and the zero-match and nonzero-tie
branches stay within their documented ranges (`[0.70, 0.90]` authority-term,
`[0.55, 0.85]` news-leaning, `[0.40, 0.75]` uncertainty-leaning, `[0.50,
0.65]` nonzero tie), the `random.random()` draw being the extra input
`r ∈ [0, 1)`. -/
theorem c4_fallback_classifier_policy (text : String) (r : ℚ)
    (h0 : 0 ≤ r) (h1 : r < 1) :
    (0 ≤ (classify_text_keywords text r).confidence ∧
      (classify_text_keywords text r).confidence ≤ 1) ∧
    (rumorCount text < verifiedCount text →
      (classify_text_keywords text r).label = "verified" ∧
      (classify_text_keywords text r).confidence =
        min 0.95 ((0.60 + (verifiedCount text : ℚ) * 0.08)
          + min 0.15 ((wordCount text : ℚ) / 200))) ∧
    (verifiedCount text < rumorCount text →
      (classify_text_keywords text r).label = "rumor" ∧
      (classify_text_keywords text r).confidence =
        min 0.90 ((0.55 + (rumorCount text : ℚ) * 0.06)
          + min 0.10 ((rumorCount text : ℚ) * 0.03))) ∧
    (verifiedCount text = 0 ∧ rumorCount text = 0 ∧ hasOfficialSource text = true →
      (classify_text_keywords text r).label = "verified" ∧
      0.70 ≤ (classify_text_keywords text r).confidence ∧
      (classify_text_keywords text r).confidence ≤ 0.90) ∧
    (verifiedCount text = 0 ∧ rumorCount text = 0 ∧ hasOfficialSource text = false ∧
        uncertaintyCount text < newsCount text →
      (classify_text_keywords text r).label = "verified" ∧
      0.55 ≤ (classify_text_keywords text r).confidence ∧
      (classify_text_keywords text r).confidence ≤ 0.85) ∧
    (verifiedCount text = 0 ∧ rumorCount text = 0 ∧ hasOfficialSource text = false ∧
        newsCount text ≤ uncertaintyCount text →
      (classify_text_keywords text r).label = "rumor" ∧
      0.40 ≤ (classify_text_keywords text r).confidence ∧
      (classify_text_keywords text r).confidence ≤ 0.75) ∧
    (verifiedCount text = rumorCount text ∧ verifiedCount text ≠ 0 →
      (classify_text_keywords text r).label = "rumor" ∧
      0.50 ≤ (classify_text_keywords text r).confidence ∧
      (classify_text_keywords text r).confidence ≤ 0.65) := by
  have hvc : (0 : ℚ) ≤ (verifiedCount text : ℚ) := Nat.cast_nonneg _
  have hrc : (0 : ℚ) ≤ (rumorCount text : ℚ) := Nat.cast_nonneg _
  have hnc : (0 : ℚ) ≤ (newsCount text : ℚ) := Nat.cast_nonneg _
  have huc : (0 : ℚ) ≤ (uncertaintyCount text : ℚ) := Nat.cast_nonneg _
  have hwc : (0 : ℚ) ≤ (wordCount text : ℚ) := Nat.cast_nonneg _
  unfold classify_text_keywords
  split_ifs with hz hoff hnews hunc hv hr <;> dsimp only
  · -- zero matches, authority term present: verified, 0.70 + 0.20·r
    refine ⟨⟨by linarith, by linarith⟩, fun h => absurd h (by omega),
      fun h => absurd h (by omega), fun _ => ⟨rfl, by linarith, by linarith⟩,
      ?_, ?_, fun h => absurd h (by omega)⟩
    · rintro ⟨-, -, hof, -⟩
      rw [hoff] at hof
      exact absurd hof (by decide)
    · rintro ⟨-, -, hof, -⟩
      rw [hoff] at hof
      exact absurd hof (by decide)
  · -- zero matches, news-leaning: verified, min(0.85, 0.55 + 0.05·news + 0.10·r)
    have hlow : (0.55 : ℚ) ≤ min 0.85 ((0.55 + (newsCount text : ℚ) * 0.05) + r * 0.10) :=
      le_min (by norm_num) (by nlinarith)
    have hup : min (0.85 : ℚ) ((0.55 + (newsCount text : ℚ) * 0.05) + r * 0.10) ≤ 0.85 :=
      min_le_left _ _
    refine ⟨⟨by linarith, by linarith⟩, fun h => absurd h (by omega),
      fun h => absurd h (by omega), ?_,
      fun _ => ⟨rfl, hlow, hup⟩, ?_, fun h => absurd h (by omega)⟩
    · rintro ⟨-, -, hof⟩
      exact absurd hof hoff
    · rintro ⟨-, -, -, hle⟩
      omega
  · -- zero matches, uncertainty-leaning with indicators: rumor,
    -- min(0.75, max(0.40, 0.45 + 0.15·r + 0.03·uncertainty))
    have hlow : (0.40 : ℚ) ≤
        min 0.75 (max 0.40 ((0.45 + r * 0.15) + (uncertaintyCount text : ℚ) * 0.03)) :=
      le_min (by norm_num) (le_max_left _ _)
    have hup : min (0.75 : ℚ)
        (max 0.40 ((0.45 + r * 0.15) + (uncertaintyCount text : ℚ) * 0.03)) ≤ 0.75 :=
      min_le_left _ _
    refine ⟨⟨by linarith, by linarith⟩, fun h => absurd h (by omega),
      fun h => absurd h (by omega), ?_, ?_,
      fun _ => ⟨rfl, hlow, hup⟩, fun h => absurd h (by omega)⟩
    · rintro ⟨-, -, hof⟩
      exact absurd hof hoff
    · rintro ⟨-, -, -, hlt⟩
      omega
  · -- zero matches, uncertainty-leaning without indicators: rumor,
    -- min(0.75, max(0.40, 0.45 + 0.15·r + wordCount/1000))
    have hlow : (0.40 : ℚ) ≤
        min 0.75 (max 0.40 ((0.45 + r * 0.15) + (wordCount text : ℚ) / 1000)) :=
      le_min (by norm_num) (le_max_left _ _)
    have hup : min (0.75 : ℚ)
        (max 0.40 ((0.45 + r * 0.15) + (wordCount text : ℚ) / 1000)) ≤ 0.75 :=
      min_le_left _ _
    refine ⟨⟨by linarith, by linarith⟩, fun h => absurd h (by omega),
      fun h => absurd h (by omega), ?_, ?_,
      fun _ => ⟨rfl, hlow, hup⟩, fun h => absurd h (by omega)⟩
    · rintro ⟨-, -, hof⟩
      exact absurd hof hoff
    · rintro ⟨-, -, -, hlt⟩
      omega
  · -- verified majority: exact formula
    have hminb : (0 : ℚ) ≤ min 0.15 ((wordCount text : ℚ) / 200) :=
      le_min (by norm_num) (by positivity)
    have hin : (0.60 : ℚ) ≤
        (0.60 + (verifiedCount text : ℚ) * 0.08) + min 0.15 ((wordCount text : ℚ) / 200) := by
      nlinarith
    have hlow : (0 : ℚ) ≤ min 0.95 ((0.60 + (verifiedCount text : ℚ) * 0.08)
        + min 0.15 ((wordCount text : ℚ) / 200)) :=
      le_min (by norm_num) (by linarith)
    have hup : min (0.95 : ℚ) ((0.60 + (verifiedCount text : ℚ) * 0.08)
        + min 0.15 ((wordCount text : ℚ) / 200)) ≤ 0.95 :=
      min_le_left _ _
    refine ⟨⟨hlow, by linarith⟩, fun _ => ⟨rfl, rfl⟩, fun h => absurd h (by omega),
      fun h => absurd h (by omega), fun h => absurd h (by omega),
      fun h => absurd h (by omega), fun h => absurd h (by omega)⟩
  · -- rumor majority: exact formula
    have hminb : (0 : ℚ) ≤ min 0.10 ((rumorCount text : ℚ) * 0.03) :=
      le_min (by norm_num) (by nlinarith)
    have hin : (0.55 : ℚ) ≤
        (0.55 + (rumorCount text : ℚ) * 0.06) + min 0.10 ((rumorCount text : ℚ) * 0.03) := by
      nlinarith
    have hlow : (0 : ℚ) ≤ min 0.90 ((0.55 + (rumorCount text : ℚ) * 0.06)
        + min 0.10 ((rumorCount text : ℚ) * 0.03)) :=
      le_min (by norm_num) (by linarith)
    have hup : min (0.90 : ℚ) ((0.55 + (rumorCount text : ℚ) * 0.06)
        + min 0.10 ((rumorCount text : ℚ) * 0.03)) ≤ 0.90 :=
      min_le_left _ _
    refine ⟨⟨hlow, by linarith⟩, fun h => absurd h (by omega), fun _ => ⟨rfl, rfl⟩,
      fun h => absurd h (by omega), fun h => absurd h (by omega),
      fun h => absurd h (by omega), fun h => absurd h (by omega)⟩
  · -- nonzero tie: rumor, 0.50 + 0.15·r
    refine ⟨⟨by linarith, by linarith⟩, fun h => absurd h (by omega),
      fun h => absurd h (by omega), fun h => absurd h (by omega),
      fun h => absurd h (by omega), fun h => absurd h (by omega),
      fun _ => ⟨rfl, by linarith, by linarith⟩⟩

/-- C4 witness: on `"usgs confirmed"` (two verified-keyword hits, no rumor
hits) the fallback classifier labels verified with the exact formula, and
the confidence is nonnegative. -/
theorem c4_fallback_witness :
    (classify_text_keywords "usgs confirmed" (1/2)).label = "verified" ∧
    (classify_text_keywords "usgs confirmed" (1/2)).confidence =
      min 0.95 ((0.60 + (verifiedCount "usgs confirmed" : ℚ) * 0.08)
        + min 0.15 ((wordCount "usgs confirmed" : ℚ) / 200)) ∧
    0 ≤ (classify_text_keywords "usgs confirmed" (1/2)).confidence := by
  have h := c4_fallback_classifier_policy "usgs confirmed" (1/2) (by norm_num) (by norm_num)
  have hvr : rumorCount "usgs confirmed" < verifiedCount "usgs confirmed" := by decide
  exact ⟨(h.2.1 hvr).1, (h.2.1 hvr).2, h.1.1⟩

end DisasterShield
